import Mathlib

/-!
Verification development for the `copexporter` QGIS plugin
(`gnosis_dggs_agent.py`, `stac_cop_exporter.py`, `cop_stac_dialog.py`).

Coordinates are embedded as exact rationals (`ℚ`); Python `None`-able
values as `Option`; Python dictionaries with a fixed key set as
structures whose `Option` fields record key presence.  Remote HTTP
calls are embedded as explicit outcome parameters (`FetchOutcome`,
`ZonesListOutcome`) passed to the functions that perform them, so that
each function stays a pure function of the world it observes.
-/

namespace CopExporter

/-- `QgsRectangle`: an axis-aligned rectangle, as used for extents
(EPSG:4326 lon/lat degrees).  Fields follow `xMinimum()/yMinimum()/
xMaximum()/yMaximum()`. -/
structure QgsRectangle where
  xmin : ℚ
  ymin : ℚ
  xmax : ℚ
  ymax : ℚ
deriving DecidableEq, Repr

/-- `cop_stac_dialog.py` lines 258-264 (`query_gnosis_earth`): the
clamp of the combined extent to DGGS/Web-Mercator bounds,
`combined_extent.set(max(-180.0, xmin), max(-85.0511, ymin),
min(180.0, xmax), min(85.0511, ymax))`. -/
def clamp_to_dggs_bounds (e : QgsRectangle) : QgsRectangle :=
  { xmin := max (-180) e.xmin
    ymin := max (-85.0511 : ℚ) e.ymin
    xmax := min 180 e.xmax
    ymax := min (85.0511 : ℚ) e.ymax }

/-- `r` is a subset-or-equal rectangle of `e`: each edge of `r` is
inside the corresponding edge of `e`. -/
def subRect (r e : QgsRectangle) : Prop :=
  e.xmin ≤ r.xmin ∧ e.ymin ≤ r.ymin ∧ r.xmax ≤ e.xmax ∧ r.ymax ≤ e.ymax

/-! ## Zone resolution (`GnosisDGGSAgent.get_zones_for_extent`) -/

/-- One feature of the zones-list document (`zones.geojson`).  `id` is
`feature.get('id')`; the eight bound fields are the optional
properties probed at lines 208-211 of `gnosis_dggs_agent.py`. -/
structure ZoneFeature where
  id : Option String
  min_lat : Option ℚ
  min_latitude : Option ℚ
  max_lat : Option ℚ
  max_latitude : Option ℚ
  min_lon : Option ℚ
  min_longitude : Option ℚ
  max_lon : Option ℚ
  max_longitude : Option ℚ
deriving DecidableEq, Repr

/-- Python truthiness of an optional number: `None` and `0` are falsy. -/
def pyTruthy : Option ℚ → Bool
  | none => false
  | some x => x ≠ 0

/-- Python `a or b` on optional numbers: `a` if truthy, else `b`. -/
def pyOr (a b : Option ℚ) : Option ℚ :=
  if pyTruthy a then a else b

/-- Python truthiness of an optional string: `None` and `""` are falsy. -/
def strTruthy : Option String → Bool
  | none => false
  | some s => s ≠ ""

/-- Lines 208-211: `zone_min_lat = props.get('min_lat') or
props.get('min_latitude')`, and so on for the other three bounds. -/
def zoneBounds (f : ZoneFeature) : Option ℚ × Option ℚ × Option ℚ × Option ℚ :=
  (pyOr f.min_lat f.min_latitude,
   pyOr f.max_lat f.max_latitude,
   pyOr f.min_lon f.min_longitude,
   pyOr f.max_lon f.max_longitude)

/-- Lines 214-223: if `all([zone_min_lat, zone_max_lat, zone_min_lon,
zone_max_lon])` (Python truthiness), keep the zone exactly when the
axis-aligned overlap test passes; otherwise keep it unconditionally. -/
def zoneMatches (extent : QgsRectangle) (f : ZoneFeature) : Bool :=
  let (zminlat, zmaxlat, zminlon, zmaxlon) := zoneBounds f
  if pyTruthy zminlat && pyTruthy zmaxlat && pyTruthy zminlon && pyTruthy zmaxlon then
    !(decide (extent.xmax < zminlon.getD 0) || decide (extent.xmin > zmaxlon.getD 0) ||
      decide (extent.ymax < zminlat.getD 0) || decide (extent.ymin > zmaxlat.getD 0))
  else
    true

/-- Outcome of the zones-list HTTP fetch in `get_zones_for_extent`:
either a decoded document (its `features` array) or any raised error
(HTTP, transport, JSON decode), which the function's blanket `except`
turns into an empty result. -/
inductive ZonesListOutcome where
  | ok (features : List ZoneFeature)
  | error
deriving DecidableEq, Repr

/-- `GnosisDGGSAgent.get_zones_for_extent` (lines 183-231), with the
HTTP fetch made explicit: skip features whose `id` is missing or empty
(`if not zone_id: continue`), then filter by `zoneMatches`; any
exception yields `[]`. -/
def get_zones_for_extent (outcome : ZonesListOutcome) (extent : QgsRectangle) :
    List String :=
  match outcome with
  | .error => []
  | .ok features =>
      (features.filter (fun f => strTruthy f.id && zoneMatches extent f)).filterMap (·.id)

/-- First truthy of two optional numbers, `none` when neither is truthy:
the presence semantics the `or`-chain plus `all([...])` actually gives
each axis bound (a bound equal to `0` behaves as absent). -/
def firstTruthy (a b : Option ℚ) : Option ℚ :=
  if pyTruthy a then a else if pyTruthy b then b else none

/-- The inclusion condition of the amended zone-resolution claim: when
every axis has a truthy bound (first truthy of the two spellings per
axis), include exactly on the axis-aligned overlap test; when any axis
lacks a truthy bound, include unconditionally. -/
def includeZoneAmended (extent : QgsRectangle) (f : ZoneFeature) : Prop :=
  match firstTruthy f.min_lat f.min_latitude, firstTruthy f.max_lat f.max_latitude,
      firstTruthy f.min_lon f.min_longitude, firstTruthy f.max_lon f.max_longitude with
  | some zminlat, some zmaxlat, some zminlon, some zmaxlon =>
      ¬ (extent.xmax < zminlon ∨ extent.xmin > zmaxlon ∨
         extent.ymax < zminlat ∨ extent.ymin > zmaxlat)
  | _, _, _, _ => True

/-! ## Coverage aggregation (`GnosisDGGSAgent.query_zone_data`,
`query_dggs_data`, `get_dggs_zones_for_extent`, `get_coverage_summary`) -/

/-- The properties of a GeoJSON feature that the agent probes:
`elevation`/`height` (lines 311-314) and `dggs_zone_id`/`zone_id`
(lines 253-254).  A `some` field records that the key is present. -/
structure FeatureProps where
  elevation : Option ℚ
  height : Option ℚ
  dggs_zone_id : Option String
  zone_id : Option String
deriving DecidableEq, Repr

/-- A GeoJSON feature as the agent reads it: an optional top-level
`id` and a properties mapping. -/
structure Feature where
  id : Option String
  properties : FeatureProps
deriving DecidableEq, Repr

/-- A decoded zone-data document; `features = some fs` records that
the `'features'` key is present (checked at line 73). -/
structure ZoneDoc where
  features : Option (List Feature)
deriving DecidableEq, Repr

/-- Outcome of one zone-data HTTP fetch (`query_zone_data`
lines 152-158): a decoded document, a non-2xx HTTP status, a
transport/URL failure, or a JSON decode failure. -/
inductive FetchOutcome where
  | ok (doc : ZoneDoc)
  | httpError (code : Nat)
  | urlError
  | decodeError
deriving DecidableEq, Repr

/-- `GnosisDGGSAgent.query_zone_data` (lines 131-169) with the fetch
made explicit: a decoded 2xx body is returned; every failure —
HTTP 404, any other HTTP status, a transport error, a decode error —
is caught and turned into `None` (only the log message differs). -/
def query_zone_data (fetch : String → FetchOutcome) (zone_id : String) :
    Option ZoneDoc :=
  match fetch zone_id with
  | .ok doc => some doc
  | .httpError _ => none
  | .urlError => none
  | .decodeError => none

/-- The combined result of `query_dggs_data`: the dict
`{"type": "FeatureCollection", "features": all_features}`. -/
structure FeatureCollection where
  features : List Feature
deriving DecidableEq, Repr

/-- `GnosisDGGSAgent.query_dggs_data` (lines 37-129), with both HTTP
interactions explicit.  `zone_id` truthy (line 51) short-circuits zone
resolution; otherwise an empty resolved set yields `None` (lines
55-59).  Each zone's data is appended when the per-zone query returned
a document carrying a `'features'` key (lines 71-74); per-zone
failures were already absorbed inside `query_zone_data`. -/
def query_dggs_data (fetch : String → FetchOutcome)
    (zonesOutcome : ZonesListOutcome) (extent : QgsRectangle)
    (zone_id : Option String) : Option FeatureCollection :=
  let zones_to_query : Option (List String) :=
    match zone_id with
    | some z => if z ≠ "" then some [z] else
        (let zs := get_zones_for_extent zonesOutcome extent
         if zs.isEmpty then none else some zs)
    | none =>
        let zs := get_zones_for_extent zonesOutcome extent
        if zs.isEmpty then none else some zs
  match zones_to_query with
  | none => none
  | some zs =>
      some ⟨zs.foldl (fun all_features zone =>
        match query_zone_data fetch zone with
        | some doc =>
            match doc.features with
            | some fs => all_features ++ fs
            | none => all_features
        | none => all_features) []⟩

/-- The zone id under which a feature is counted in
`get_dggs_zones_for_extent` (lines 253-256):
`props.get('dggs_zone_id') or props.get('zone_id') or
feature.get('id')`, kept only when truthy. -/
def featureZoneId (f : Feature) : Option String :=
  if strTruthy f.properties.dggs_zone_id then f.properties.dggs_zone_id
  else if strTruthy f.properties.zone_id then f.properties.zone_id
  else if strTruthy f.id then f.id
  else none

/-- `GnosisDGGSAgent.get_dggs_zones_for_extent` (lines 233-259): query
the coverage, collect the distinct truthy zone ids referenced by the
returned features, and return them sorted
(`sorted(list(zone_ids))`). -/
def get_dggs_zones_for_extent (fetch : String → FetchOutcome)
    (zonesOutcome : ZonesListOutcome) (extent : QgsRectangle) : List String :=
  match query_dggs_data fetch zonesOutcome extent none with
  | none => []
  | some result =>
      ((result.features.filterMap featureZoneId).dedup).mergeSort (· ≤ ·)

/-- The per-feature elevation probe of `get_coverage_summary`
(lines 309-314): `'elevation'` first, then `'height'`, by key
presence. -/
def featureElevation (f : Feature) : Option ℚ :=
  match f.properties.elevation with
  | some e => some e
  | none => f.properties.height

/-- `elevation_stats` of a coverage summary (lines 331-336). -/
structure ElevationStats where
  min : ℚ
  max : ℚ
  count : Nat
deriving DecidableEq, Repr

/-- The dict returned by `get_coverage_summary`.  On the failure
branch the Python dict carries only `success/error/zone_count/
feature_count`; the absent keys are embedded as `[]`/`none`. -/
structure CoverageSummary where
  success : Bool
  hasError : Bool
  zone_count : Nat
  feature_count : Nat
  zones : List String
  dggs_crs : String
  elevation_stats : Option ElevationStats
deriving DecidableEq, Repr

/-- `GnosisDGGSAgent.get_coverage_summary` (lines 283-338), with the
HTTP interactions explicit.  The second derivation of zone ids
(`get_dggs_zones_for_extent`) re-runs the same query against the same
world. -/
def get_coverage_summary (fetch : String → FetchOutcome)
    (zonesOutcome : ZonesListOutcome) (extent : QgsRectangle)
    (dggs_crs : String) : CoverageSummary :=
  match query_dggs_data fetch zonesOutcome extent none with
  | none =>
      { success := false, hasError := true, zone_count := 0, feature_count := 0
        zones := [], dggs_crs := dggs_crs, elevation_stats := none }
  | some result =>
      let features := result.features
      let zone_ids := get_dggs_zones_for_extent fetch zonesOutcome extent
      let elevations := features.filterMap featureElevation
      { success := true
        hasError := false
        zone_count := zone_ids.length
        feature_count := features.length
        zones := zone_ids
        dggs_crs := dggs_crs
        elevation_stats :=
          match elevations with
          | [] => none
          | e :: es => some ⟨es.foldl min e, es.foldl max e, (e :: es).length⟩ }

/-! ## STAC exporter (`stac_cop_exporter.py`, class `STACCOPExporter`) -/

/-- `STACCOPExporter.sanitize_id` (lines 332-348): replace every
character that is not alphanumeric or in `-_` by `_`, then index the
first character (`sanitized[0]`, an `IndexError` on the empty string,
embedded as `none`), prefix `item_` if it is not alphanumeric, and
lower-case the result.  Python's ASCII-range `str.lower` step is
embedded by `Char.toLower`. -/
def sanitize_id (name : String) : Option String :=
  let sanitized := name.data.map
    (fun c => if c.isAlphanum || c = '-' || c = '_' then c else '_')
  match sanitized with
  | [] => none
  | c :: _ =>
      let prefixed := if c.isAlphanum then sanitized else "item_".data ++ sanitized
      some (String.mk (prefixed.map Char.toLower))

/-- The COP metadata dict collected by the dialog (lines 445-452 of
`cop_stac_dialog.py`): all six keys always present, as strings. -/
structure CopMetadata where
  mission : String
  classification : String
  releasability : String
  dggs_crs : String
  dggs_zone_id : String
  service_provider : String
deriving DecidableEq, Repr

/-- A STAC Item `bbox`, `[minLon, minLat, maxLon, maxLat]`. -/
structure Bbox where
  minLon : ℚ
  minLat : ℚ
  maxLon : ℚ
  maxLat : ℚ
deriving DecidableEq, Repr

/-- A layer as the exporter reads it: its name and its extent, already
in EPSG:4326 (the CRS transform at lines 126-132 is the external
reprojection collaborator, a no-op for WGS84 layers). -/
structure Layer where
  name : String
  extent : QgsRectangle
deriving DecidableEq, Repr

/-- The parts of a produced STAC Item the claims refer to: `id`,
`bbox`, and the `properties` mapping in insertion order.  The
`geometry`, `assets` and item-level `links` members are not embedded
(no claim mentions them). -/
structure STACItem where
  id : String
  bbox : Bbox
  properties : List (String × String)
deriving DecidableEq, Repr

/-- The conditional `cop:*` property insertions of `create_stac_item`
(lines 195-211), in source order: each key is added exactly when
`cop_metadata.get(k)` is truthy, i.e. the string is non-empty. -/
def copProperties (m : CopMetadata) : List (String × String) :=
  (if m.mission ≠ "" then [("cop:mission", m.mission)] else []) ++
  (if m.classification ≠ "" then [("cop:classification", m.classification)] else []) ++
  (if m.releasability ≠ "" then [("cop:releasability", m.releasability)] else []) ++
  (if m.dggs_crs ≠ "" then [("cop:dggs_crs", m.dggs_crs)] else []) ++
  (if m.dggs_zone_id ≠ "" then [("cop:dggs_zone_id", m.dggs_zone_id)] else []) ++
  (if m.service_provider ≠ "" then [("cop:service_provider", m.service_provider)] else [])

/-- `STACCOPExporter.create_stac_item` (lines 108-213).  `layer_id` is
the freshly drawn UUID4 string and `now` the current UTC instant,
both made explicit parameters of the embedding. -/
def create_stac_item (layer : Layer) (layer_id : String) (now : String)
    (m : CopMetadata) : STACItem :=
  { id := layer_id
    bbox := ⟨layer.extent.xmin, layer.extent.ymin, layer.extent.xmax, layer.extent.ymax⟩
    properties := [("datetime", now), ("title", layer.name)] ++ copProperties m }

/-- The exporter session state: the `exported_items` list and the item
JSON files written so far (file name relative to the STAC directory,
paired with the item serialized into it). -/
structure ExporterState where
  exported_items : List STACItem
  written_item_files : List (String × STACItem)
deriving DecidableEq, Repr

/-- `STACCOPExporter.__init__` (lines 23-39): an empty session. -/
def exporterInit : ExporterState := ⟨[], []⟩

/-- `STACCOPExporter.export_layer` (lines 41-67): sanitize the layer
name (an empty name raises, embedded as `none`), build the item, write
it to `{file_name}.json`, append it to `exported_items`, and return
the item path.  The asset write (`export_layer_data`) touches only the
`assets/` directory and is not embedded. -/
def export_layer (st : ExporterState) (layer : Layer) (layer_id : String)
    (now : String) (m : CopMetadata) : Option (ExporterState × String) :=
  match sanitize_id layer.name with
  | none => none
  | some file_name =>
      let stac_item := create_stac_item layer layer_id now m
      let item_path := file_name ++ ".json"
      some ({ exported_items := st.exported_items ++ [stac_item]
              written_item_files := st.written_item_files ++ [(item_path, stac_item)] },
            item_path)

/-- The parts of the produced STAC Collection the claims refer to. -/
structure STACCollection where
  id : String
  title : String
  description : String
  spatial_bbox : Bbox
  temporal_interval : String × String
  links : List (String × String)
deriving DecidableEq, Repr

/-- `STACCOPExporter.create_collection` (lines 215-295) on the current
`exported_items`; `now` is the current UTC instant used when no item
carries a `datetime`.  The spatial extent takes `min`/`max` per bbox
component over all items; the temporal interval is
`[min(all_times), max(all_times)]` under Python's lexicographic string
order; the links are `self`, `root`, then one `item` link per exported
item whose href is `./{item['id']}.json`. -/
def create_collection (st : ExporterState) (collection_id : String)
    (title : String) (description : String) (now : String) : STACCollection :=
  let all_bbox := st.exported_items.map (·.bbox)
  let all_times := st.exported_items.filterMap (fun item => item.properties.lookup "datetime")
  let spatial_bbox : Bbox :=
    match all_bbox with
    | [] => ⟨-180, -90, 180, 90⟩
    | b :: bs =>
        ⟨(bs.map Bbox.minLon).foldl min b.minLon,
         (bs.map Bbox.minLat).foldl min b.minLat,
         (bs.map Bbox.maxLon).foldl max b.maxLon,
         (bs.map Bbox.maxLat).foldl max b.maxLat⟩
  let temporal_interval : String × String :=
    match all_times with
    | [] => (now, now)
    | t :: ts => (ts.foldl min t, ts.foldl max t)
  { id := collection_id
    title := title
    description := description
    spatial_bbox := spatial_bbox
    temporal_interval := temporal_interval
    links := [("self", "./collection.json"), ("root", "./collection.json")] ++
      st.exported_items.map (fun item => ("item", "./" ++ item.id ++ ".json")) }

/-- The spec's `combine` on bboxes: componentwise min/max, the minimal
bbox covering both inputs. -/
def combineBbox (a b : Bbox) : Bbox :=
  ⟨min a.minLon b.minLon, min a.minLat b.minLat,
   max a.maxLon b.maxLon, max a.maxLat b.maxLat⟩

/-! ## Dialog export path (`COPSTACDialog.export_layers`,
`cop_stac_dialog.py` lines 422-540) -/

/-- Parameter names of `STACCOPExporter.__init__` after `self`
(`stac_cop_exporter.py` line 23: `def __init__(self, output_dir)`). -/
def stacExporterInitParams : List String := ["output_dir"]

/-- The method names the `STACCOPExporter` class body defines. -/
def stacExporterMethods : List String :=
  ["export_layer", "export_layer_data", "create_stac_item",
   "create_collection", "create_zip_archive", "sanitize_id"]

/-- Python call binding against a parameter list: `npos` positional
arguments bind the first `npos` parameters, and every keyword argument
must name one of the remaining parameters.  A call violating this
raises `TypeError` before the callee body runs. -/
def pythonCallBinds (params : List String) (npos : Nat) (kwargs : List String) : Bool :=
  decide (npos ≤ params.length) && kwargs.all (fun k => (params.drop npos).contains k)

/-- Outcome of one run of `COPSTACDialog.export_layers`: the two early
validation returns, an exception reaching the outer `except` after
`n` layers were already exported, or a completed run. -/
inductive DialogExportOutcome where
  | missingOutputDir
  | noLayersSelected
  | exportError (layersExportedBeforeError : Nat)
  | completed (successCount : Nat)
deriving DecidableEq, Repr

/-- `COPSTACDialog.export_layers` (lines 422-540) up to the point the
claims reach.  After the two validation returns it executes, inside a
`try`, `exporter = STACCOPExporter(self.output_dir,
map_canvas=map_canvas)` — one positional argument plus the
`map_canvas` keyword — and then `exporter.set_clip_extent(...)`.  A
binding failure or a missing attribute raises, landing in the outer
`except` with `success_count` still `0`; only if both succeeded would
the per-layer export loop run (that continuation is unreachable and
summarized as `completed`). -/
def dialog_export_layers (output_dir_set : Bool) (selected : List Layer)
    (has_canvas : Bool) : DialogExportOutcome :=
  if !output_dir_set then .missingOutputDir
  else if selected.isEmpty then .noLayersSelected
  else if !pythonCallBinds stacExporterInitParams 1 ["map_canvas"] then
    .exportError 0
  else if has_canvas && !stacExporterMethods.contains "set_clip_extent" then
    .exportError 0
  else
    .completed selected.length

/-! ## Concrete worlds used to instantiate the theorems -/

/-- What one zone contributes to the combined feature list of
`query_dggs_data`: its decoded `features` when the fetch succeeded and
the document carries the key, nothing on any failure. -/
def zoneContribution (fetch : String → FetchOutcome) (zone : String) : List Feature :=
  match query_zone_data fetch zone with
  | some doc => doc.features.getD []
  | none => []

/-- A zones-list feature with id `A` and no bound metadata. -/
def zoneA : ZoneFeature := ⟨some "A", none, none, none, none, none, none, none, none⟩

/-- A zones-list feature with id `B` and no bound metadata. -/
def zoneB : ZoneFeature := ⟨some "B", none, none, none, none, none, none, none, none⟩

/-- A zones-list document listing zones `A` and `B`. -/
def worldZones : ZonesListOutcome := .ok [zoneA, zoneB]

/-- One feature served for zone `B`, carrying elevation `12`. -/
def featB : Feature := ⟨some "fB", ⟨some 12, none, some "B", none⟩⟩

/-- A world where zone `B` has data and every other zone fetch fails
with HTTP 500 (a hard error). -/
def worldFetch500 : String → FetchOutcome :=
  fun z => if z = "B" then .ok ⟨some [featB]⟩ else .httpError 500

/-- A world where zone `B` has data and every other zone fetch returns
HTTP 404 (a soft miss). -/
def worldFetch404 : String → FetchOutcome :=
  fun z => if z = "B" then .ok ⟨some [featB]⟩ else .httpError 404

/-- The test extent of `test_gnosis_agent.py` (San Francisco Bay). -/
def testExtent : QgsRectangle := ⟨-122.5, 37.7, -122.3, 37.9⟩

/-- A zones-list feature whose four bound fields are all present with
value `0` or `5`: bounds `[0,5] × [0,5]`, disjoint from `testExtentFar`. -/
def zoneZeroBounds : ZoneFeature :=
  ⟨some "Z", some 0, none, some 5, none, some 0, none, some 5, none⟩

/-- An extent away from `zoneZeroBounds`' box. -/
def testExtentFar : QgsRectangle := ⟨10, 10, 20, 20⟩

/-- A vector layer used as concrete export input. -/
def layerMy : Layer := ⟨"My Layer", ⟨0, 0, 1, 1⟩⟩

/-- The fixed UUID4 string standing for the id drawn in `export_layer`. -/
def uuidMy : String := "123e4567-e89b-12d3-a456-426614174000"

/-- A fixed export timestamp. -/
def nowMy : String := "2026-10-12T00:00:00+00:00"

/-- The COP metadata of the spec's end-to-end scenario. -/
def metaOpTest : CopMetadata :=
  ⟨"OP-TEST", "public release", "", "rHEALPix", "R05_08", ""⟩

/-- The STAC Item produced for `layerMy`. -/
def itemMy : STACItem := create_stac_item layerMy uuidMy nowMy metaOpTest

/-- The exporter state after exporting `layerMy`. -/
def stateMy : ExporterState := ⟨[itemMy], [("my_layer.json", itemMy)]⟩

/-- A STAC Item with bbox `[0,0,1,1]`. -/
def itemBoxA : STACItem :=
  ⟨"a", ⟨0, 0, 1, 1⟩, [("datetime", "2026-01-01T00:00:00+00:00")]⟩

/-- A STAC Item with bbox `[-1,-1,0,0]`. -/
def itemBoxB : STACItem :=
  ⟨"b", ⟨-1, -1, 0, 0⟩, [("datetime", "2026-01-02T00:00:00+00:00")]⟩

/-! ## Helper lemmas -/

theorem foldl_min_le {α : Type} [LinearOrder α] (es : List α) (e : α) :
    es.foldl min e ≤ e ∧ ∀ v ∈ es, es.foldl min e ≤ v := by
  induction es generalizing e with
  | nil => simp
  | cons x xs ih =>
      refine ⟨le_trans (ih (min e x)).1 (min_le_left _ _), ?_⟩
      intro v hv
      rcases List.mem_cons.mp hv with rfl | hv
      · exact le_trans (ih (min e v)).1 (min_le_right _ _)
      · exact (ih (min e x)).2 v hv

theorem foldl_min_mem {α : Type} [LinearOrder α] (es : List α) (e : α) :
    es.foldl min e = e ∨ es.foldl min e ∈ es := by
  induction es generalizing e with
  | nil => simp
  | cons x xs ih =>
      rcases ih (min e x) with h | h
      · rcases min_cases e x with ⟨hm, _⟩ | ⟨hm, _⟩
        · exact Or.inl (by simpa [hm] using h)
        · exact Or.inr (List.mem_cons.mpr (Or.inl (by simpa [hm] using h)))
      · exact Or.inr (List.mem_cons.mpr (Or.inr h))

theorem foldl_max_le {α : Type} [LinearOrder α] (es : List α) (e : α) :
    e ≤ es.foldl max e ∧ ∀ v ∈ es, v ≤ es.foldl max e := by
  induction es generalizing e with
  | nil => simp
  | cons x xs ih =>
      refine ⟨le_trans (le_max_left _ _) (ih (max e x)).1, ?_⟩
      intro v hv
      rcases List.mem_cons.mp hv with rfl | hv
      · exact le_trans (le_max_right _ _) (ih (max e v)).1
      · exact (ih (max e x)).2 v hv

theorem foldl_max_mem {α : Type} [LinearOrder α] (es : List α) (e : α) :
    es.foldl max e = e ∨ es.foldl max e ∈ es := by
  induction es generalizing e with
  | nil => simp
  | cons x xs ih =>
      rcases ih (max e x) with h | h
      · rcases max_cases e x with ⟨hm, _⟩ | ⟨hm, _⟩
        · exact Or.inl (by simpa [hm] using h)
        · exact Or.inr (List.mem_cons.mpr (Or.inl (by simpa [hm] using h)))
      · exact Or.inr (List.mem_cons.mpr (Or.inr h))

theorem foldl_combineBbox (bs : List Bbox) (b : Bbox) :
    bs.foldl combineBbox b =
      ⟨(bs.map Bbox.minLon).foldl min b.minLon,
       (bs.map Bbox.minLat).foldl min b.minLat,
       (bs.map Bbox.maxLon).foldl max b.maxLon,
       (bs.map Bbox.maxLat).foldl max b.maxLat⟩ := by
  induction bs generalizing b with
  | nil => rfl
  | cons x xs ih => simp [List.foldl_cons, ih, combineBbox]

/-! ## C9: clamping to DGGS bounds -/

/-- C9: `clamp_to_dggs_bounds` is idempotent, and its result is a
subset-or-equal rectangle of its input. -/
theorem clamp_to_dggs_bounds_idempotent_subset (e : QgsRectangle) :
    clamp_to_dggs_bounds (clamp_to_dggs_bounds e) = clamp_to_dggs_bounds e ∧
    subRect (clamp_to_dggs_bounds e) e := by
  constructor
  · simp only [clamp_to_dggs_bounds]
    congr 1 <;> simp [← max_assoc, ← min_assoc]
  · exact ⟨le_max_right _ _, le_max_right _ _, min_le_right _ _, min_le_right _ _⟩

/-! ## C5: the dialog export path -/

/-- C5: with an output directory set and at least one selected layer,
the call `STACCOPExporter(self.output_dir, map_canvas=map_canvas)`
cannot bind (`__init__` accepts only `output_dir`), so the export path
raises before any layer is exported and ends in the outer `except`
with zero layers exported. -/
theorem dialog_export_layers_always_fails (selected : List Layer)
    (has_canvas : Bool) (h : selected ≠ []) :
    pythonCallBinds stacExporterInitParams 1 ["map_canvas"] = false ∧
    stacExporterMethods.contains "set_clip_extent" = false ∧
    dialog_export_layers true selected has_canvas = .exportError 0 := by
  have hbind : pythonCallBinds stacExporterInitParams 1 ["map_canvas"] = false := by
    decide
  have hne : selected.isEmpty = false := by simpa [List.isEmpty_iff] using h
  exact ⟨hbind, by decide, by simp [dialog_export_layers, hne, hbind]⟩

/-- Witness for C5 at a concrete one-layer selection. -/
theorem dialog_export_layers_always_fails_witness :
    ([layerMy] : List Layer) ≠ [] ∧
    dialog_export_layers true [layerMy] true = .exportError 0 :=
  ⟨by decide, (dialog_export_layers_always_fails [layerMy] true (by decide)).2.2⟩

/-! ## C10: `sanitize_id` -/

theorem char_toNat_ofNat_of_valid {n : Nat} (h : n.isValidChar) :
    (Char.ofNat n).toNat = n := by
  simp [Char.ofNat, dif_pos h, Char.ofNatAux, Char.toNat, UInt32.toNat]

theorem char_toLower_of_not_upper {c : Char} (h : ¬(c.toNat ≥ 65 ∧ c.toNat ≤ 90)) :
    Char.toLower c = c := by
  show (if c.toNat ≥ 65 ∧ c.toNat ≤ 90 then Char.ofNat (c.toNat + 32) else c) = c
  exact if_neg h

theorem char_toLower_of_upper {c : Char} (h : c.toNat ≥ 65 ∧ c.toNat ≤ 90) :
    Char.toLower c = Char.ofNat (c.toNat + 32) := by
  show (if c.toNat ≥ 65 ∧ c.toNat ≤ 90 then Char.ofNat (c.toNat + 32) else c) = _
  exact if_pos h

theorem char_toLower_toLower (c : Char) :
    Char.toLower (Char.toLower c) = Char.toLower c := by
  by_cases h : c.toNat ≥ 65 ∧ c.toNat ≤ 90
  · have hv : (c.toNat + 32).isValidChar := Or.inl (by omega)
    have ht : (Char.ofNat (c.toNat + 32)).toNat = c.toNat + 32 :=
      char_toNat_ofNat_of_valid hv
    rw [char_toLower_of_upper h]
    exact char_toLower_of_not_upper (by rw [ht]; omega)
  · rw [char_toLower_of_not_upper h, char_toLower_of_not_upper h]

/-- C10: `sanitize_id` raises on the empty string (`sanitized[0]` is
an `IndexError`), so exporting a layer with an empty name fails; on
every non-empty name it returns a non-empty string that is its own
lower-casing. -/
theorem sanitize_id_empty_raises_nonempty_lower :
    sanitize_id "" = none ∧
    (∀ (st : ExporterState) (e : QgsRectangle) (layer_id now : String)
        (m : CopMetadata), export_layer st ⟨"", e⟩ layer_id now m = none) ∧
    ∀ name : String, name ≠ "" →
      ∃ s, sanitize_id name = some s ∧ s ≠ "" ∧ s.data.map Char.toLower = s.data := by
  refine ⟨rfl, fun st e layer_id now m => rfl, fun name hname => ?_⟩
  have hempty : ("" : String).data = [] := rfl
  have hdata : name.data ≠ [] := by
    intro hd
    exact hname (String.ext (hd.trans hempty.symm))
  rcases hm : name.data.map
      (fun c => if c.isAlphanum || c = '-' || c = '_' then c else '_') with _ | ⟨c, rest⟩
  · exact absurd (List.map_eq_nil_iff.mp hm) hdata
  · refine ⟨String.mk ((if c.isAlphanum then c :: rest
        else "item_".data ++ c :: rest).map Char.toLower), ?_, ?_, ?_⟩
    · unfold sanitize_id
      simp only [hm]
    · intro hs
      have hl : ((if c.isAlphanum then c :: rest
          else "item_".data ++ c :: rest).map Char.toLower) = [] :=
        (congrArg String.data hs).trans hempty
      have := List.map_eq_nil_iff.mp hl
      split at this <;> simp_all
    · show ((if c.isAlphanum then c :: rest
          else "item_".data ++ c :: rest).map Char.toLower).map Char.toLower = _
      simp only [List.map_map]
      exact List.map_congr_left (fun x _ => char_toLower_toLower x)

/-- Witness for C10 at the concrete name `"My Layer"`. -/
theorem sanitize_id_empty_raises_nonempty_lower_witness :
    ("My Layer" : String) ≠ "" ∧
    ∃ s, sanitize_id "My Layer" = some s ∧ s ≠ "" ∧
      s.data.map Char.toLower = s.data :=
  ⟨by decide,
   sanitize_id_empty_raises_nonempty_lower.2.2 "My Layer" (by decide)⟩

/-! ## C6: optional `cop:*` properties -/

theorem mem_fst_ite_single {k key v : String} {c : Prop} [Decidable c] :
    (k ∈ (if c then [(key, v)] else []).map Prod.fst) ↔ (c ∧ k = key) := by
  split_ifs with h <;> simp [h]

/-- C6: each optional `cop:*` key appears in a produced item's
properties exactly when the corresponding metadata string is
non-empty; in particular metadata with `mission = ""` and
`classification = "public release"` yields `cop:classification` but no
`cop:mission` key. -/
theorem create_stac_item_cop_keys (layer : Layer) (layer_id now : String)
    (m : CopMetadata) :
    ("cop:mission" ∈ ((create_stac_item layer layer_id now m).properties).map Prod.fst
        ↔ m.mission ≠ "") ∧
    ("cop:classification" ∈ ((create_stac_item layer layer_id now m).properties).map Prod.fst
        ↔ m.classification ≠ "") ∧
    ("cop:releasability" ∈ ((create_stac_item layer layer_id now m).properties).map Prod.fst
        ↔ m.releasability ≠ "") ∧
    ("cop:dggs_crs" ∈ ((create_stac_item layer layer_id now m).properties).map Prod.fst
        ↔ m.dggs_crs ≠ "") ∧
    ("cop:dggs_zone_id" ∈ ((create_stac_item layer layer_id now m).properties).map Prod.fst
        ↔ m.dggs_zone_id ≠ "") ∧
    ("cop:service_provider" ∈ ((create_stac_item layer layer_id now m).properties).map Prod.fst
        ↔ m.service_provider ≠ "") ∧
    ("cop:classification" ∈ ((create_stac_item layer layer_id now
        ⟨"", "public release", "", "", "", ""⟩).properties).map Prod.fst) ∧
    ("cop:mission" ∉ ((create_stac_item layer layer_id now
        ⟨"", "public release", "", "", "", ""⟩).properties).map Prod.fst) := by
  refine ⟨?_, ?_, ?_, ?_, ?_, ?_, ?_, ?_⟩ <;>
    simp [create_stac_item, copProperties, mem_fst_ite_single]

/-! ## C7: collection spatial and temporal extent -/

/-- C7: the collection's spatial extent is `combine` folded over the
item bboxes, defaulting to `[-180,-90,180,90]` for an empty item
sequence (and equals exactly `[-1,-1,1,1]` for bboxes `[0,0,1,1]` and
`[-1,-1,0,0]`); its temporal interval is the least and greatest
`properties.datetime` string in lexicographic order, defaulting to
`[now, now]` when no item carries a datetime. -/
theorem create_collection_extent (items : List STACItem)
    (files : List (String × STACItem)) (cid title desc now : String) :
    ((items = [] →
        (create_collection ⟨items, files⟩ cid title desc now).spatial_bbox =
          ⟨-180, -90, 180, 90⟩) ∧
      (∀ b bs, items.map (·.bbox) = b :: bs →
        (create_collection ⟨items, files⟩ cid title desc now).spatial_bbox =
          bs.foldl combineBbox b)) ∧
    ((items.filterMap (fun i => i.properties.lookup "datetime") = [] →
        (create_collection ⟨items, files⟩ cid title desc now).temporal_interval =
          (now, now)) ∧
      (∀ t ts, items.filterMap (fun i => i.properties.lookup "datetime") = t :: ts →
        (create_collection ⟨items, files⟩ cid title desc now).temporal_interval.1 ∈ t :: ts ∧
        (create_collection ⟨items, files⟩ cid title desc now).temporal_interval.2 ∈ t :: ts ∧
        ∀ s ∈ t :: ts,
          (create_collection ⟨items, files⟩ cid title desc now).temporal_interval.1 ≤ s ∧
          s ≤ (create_collection ⟨items, files⟩ cid title desc now).temporal_interval.2)) ∧
    (create_collection ⟨[itemBoxA, itemBoxB], []⟩ cid title desc now).spatial_bbox =
      ⟨-1, -1, 1, 1⟩ := by
  refine ⟨⟨?_, ?_⟩, ⟨?_, ?_⟩, ?_⟩
  · intro h; subst h; rfl
  · intro b bs h
    simp only [create_collection, h, foldl_combineBbox]
  · intro h
    simp only [create_collection, h]
  · intro t ts h
    simp only [create_collection, h]
    refine ⟨?_, ?_, ?_⟩
    · rcases foldl_min_mem ts t with hm | hm
      · rw [hm]; exact List.mem_cons_self _ _
      · exact List.mem_cons_of_mem _ hm
    · rcases foldl_max_mem ts t with hm | hm
      · rw [hm]; exact List.mem_cons_self _ _
      · exact List.mem_cons_of_mem _ hm
    · intro s hs
      rcases List.mem_cons.mp hs with rfl | hs
      · exact ⟨(foldl_min_le ts s).1, (foldl_max_le ts s).1⟩
      · exact ⟨(foldl_min_le ts t).2 s hs, (foldl_max_le ts t).2 s hs⟩
  · rfl

/-- Witness for C7 at the two-item sequence with bboxes `[0,0,1,1]`
and `[-1,-1,0,0]` and their concrete datetimes. -/
theorem create_collection_extent_witness :
    ([itemBoxA, itemBoxB].map (fun i => i.bbox) = ⟨0, 0, 1, 1⟩ :: [⟨-1, -1, 0, 0⟩]) ∧
    (create_collection ⟨[itemBoxA, itemBoxB], []⟩ "op-test" "t" "d"
        "2026-10-12T00:00:00+00:00").spatial_bbox =
      ([(⟨-1, -1, 0, 0⟩ : Bbox)].foldl combineBbox ⟨0, 0, 1, 1⟩) ∧
    (create_collection ⟨[itemBoxA, itemBoxB], []⟩ "op-test" "t" "d"
        "2026-10-12T00:00:00+00:00").temporal_interval.1 ∈
      ["2026-01-01T00:00:00+00:00", "2026-01-02T00:00:00+00:00"] :=
  ⟨by decide,
   (create_collection_extent [itemBoxA, itemBoxB] [] "op-test" "t" "d"
      "2026-10-12T00:00:00+00:00").1.2 _ _ (by decide),
   ((create_collection_extent [itemBoxA, itemBoxB] [] "op-test" "t" "d"
      "2026-10-12T00:00:00+00:00").2.1.2 _ _ (by decide)).1⟩

/-! ## C1: zone resolution membership -/

theorem pyTruthy_some {o : Option ℚ} (h : pyTruthy o = true) :
    ∃ v, o = some v ∧ v ≠ 0 := by
  cases o with
  | none => simp [pyTruthy] at h
  | some v => exact ⟨v, rfl, by simpa [pyTruthy] using h⟩

theorem axis_dichotomy (a b : Option ℚ) :
    (∃ v, pyOr a b = some v ∧ firstTruthy a b = some v ∧ pyTruthy (pyOr a b) = true) ∨
    (pyTruthy (pyOr a b) = false ∧ firstTruthy a b = none) := by
  by_cases h : pyTruthy (pyOr a b)
  · obtain ⟨v, hv, hv0⟩ := pyTruthy_some h
    refine Or.inl ⟨v, hv, ?_, h⟩
    unfold pyOr at hv h
    unfold firstTruthy
    by_cases ha : pyTruthy a
    · simpa [ha] using hv
    · rw [if_neg ha] at hv h
      rw [if_neg ha, if_pos h]
      exact hv
  · have h' : pyTruthy (pyOr a b) = false := by simpa using h
    refine Or.inr ⟨h', ?_⟩
    unfold pyOr at h'
    unfold firstTruthy
    by_cases ha : pyTruthy a
    · rw [if_pos ha] at h'
      rw [ha] at h'
      simp at h'
    · rw [if_neg ha] at h'
      rw [if_neg ha, if_neg (by simp [h'])]

theorem zoneMatches_iff (extent : QgsRectangle) (f : ZoneFeature) :
    zoneMatches extent f = true ↔ includeZoneAmended extent f := by
  rcases axis_dichotomy f.min_lat f.min_latitude with ⟨v1, hp1, hf1, ht1⟩ | ⟨ht1, hf1⟩ <;>
    rcases axis_dichotomy f.max_lat f.max_latitude with ⟨v2, hp2, hf2, ht2⟩ | ⟨ht2, hf2⟩ <;>
      rcases axis_dichotomy f.min_lon f.min_longitude with ⟨v3, hp3, hf3, ht3⟩ | ⟨ht3, hf3⟩ <;>
        rcases axis_dichotomy f.max_lon f.max_longitude with ⟨v4, hp4, hf4, ht4⟩ | ⟨ht4, hf4⟩ <;>
          simp_all [zoneMatches, zoneBounds, includeZoneAmended, not_or, and_assoc]

/-- C1 (amended): a zone id is in the result of `get_zones_for_extent`
exactly when some listed feature carries it as a non-empty `id` and
passes the inclusion rule in which an axis bound counts as present
only when some spelling of it is present with a non-zero value
(first such value wins); when every axis has such a bound the
axis-aligned overlap test decides, otherwise the zone is included
unconditionally. -/
theorem get_zones_for_extent_membership (extent : QgsRectangle)
    (features : List ZoneFeature) (zid : String) :
    zid ∈ get_zones_for_extent (.ok features) extent ↔
      ∃ f ∈ features, f.id = some zid ∧ zid ≠ "" ∧ includeZoneAmended extent f := by
  simp only [get_zones_for_extent, List.mem_filterMap, List.mem_filter]
  constructor
  · rintro ⟨f, ⟨hf, hq⟩, hid⟩
    rw [Bool.and_eq_true] at hq
    refine ⟨f, hf, hid, ?_, (zoneMatches_iff extent f).mp hq.2⟩
    have := hq.1
    rw [hid] at this
    simpa [strTruthy] using this
  · rintro ⟨f, hf, hid, hne, hinc⟩
    refine ⟨f, ⟨hf, ?_⟩, hid⟩
    rw [Bool.and_eq_true]
    exact ⟨by simp [strTruthy, hid, hne], (zoneMatches_iff extent f).mpr hinc⟩

/-- C1 counterexample: `zoneZeroBounds` has all four bound fields
present (values `0` and `5`), the overlap test against
`testExtentFar` fails, yet the zone id `Z` is included — the claim's
unconditional reading of "present" is falsified by zero-valued
bounds, which Python truthiness treats as absent. -/
theorem get_zones_for_extent_zero_bounds_counterexample :
    zoneZeroBounds.min_lat = some 0 ∧ zoneZeroBounds.max_lat = some 5 ∧
    zoneZeroBounds.min_lon = some 0 ∧ zoneZeroBounds.max_lon = some 5 ∧
    (testExtentFar.xmax < 0 ∨ testExtentFar.xmin > 5 ∨
      testExtentFar.ymax < 0 ∨ testExtentFar.ymin > 5) ∧
    "Z" ∈ get_zones_for_extent (.ok [zoneZeroBounds]) testExtentFar := by
  refine ⟨rfl, rfl, rfl, rfl, Or.inr (Or.inl (by norm_num [testExtentFar])), by decide⟩

/-! ## C2, C3: per-zone failure handling in the aggregation -/

theorem foldl_zoneContribution (fetch : String → FetchOutcome) (zs : List String)
    (init : List Feature) :
    zs.foldl (fun all_features zone =>
        match query_zone_data fetch zone with
        | some doc =>
            match doc.features with
            | some fs => all_features ++ fs
            | none => all_features
        | none => all_features) init =
      init ++ zs.flatMap (zoneContribution fetch) := by
  induction zs generalizing init with
  | nil => simp
  | cons z zs ih =>
      rw [List.foldl_cons, ih, List.flatMap_cons]
      rcases h : query_zone_data fetch z with _ | doc
      · simp [zoneContribution, h]
      · rcases hf : doc.features with _ | fs <;>
          simp [zoneContribution, h, hf]

theorem query_dggs_data_eq_bind (fetch : String → FetchOutcome)
    (zonesOutcome : ZonesListOutcome) (extent : QgsRectangle)
    (h : get_zones_for_extent zonesOutcome extent ≠ []) :
    query_dggs_data fetch zonesOutcome extent none =
      some ⟨(get_zones_for_extent zonesOutcome extent).flatMap (zoneContribution fetch)⟩ := by
  have hne : (get_zones_for_extent zonesOutcome extent).isEmpty = false := by
    simpa [List.isEmpty_iff] using h
  simp [query_dggs_data, hne, foldl_zoneContribution]

/-- C2 (amended): when zone resolution yields a non-empty set, the
aggregation always succeeds, returning the in-order concatenation of
per-zone contributions; a zone whose fetch fails — with HTTP 404, any
other HTTP status, a transport failure or a decode failure —
contributes no features and is skipped, never aborting the
aggregation. -/
theorem query_dggs_data_absorbs_hard_errors (fetch : String → FetchOutcome)
    (zonesOutcome : ZonesListOutcome) (extent : QgsRectangle)
    (h : get_zones_for_extent zonesOutcome extent ≠ []) :
    query_dggs_data fetch zonesOutcome extent none =
      some ⟨(get_zones_for_extent zonesOutcome extent).flatMap (zoneContribution fetch)⟩ ∧
    (∀ zone code, fetch zone = .httpError code → zoneContribution fetch zone = []) ∧
    (∀ zone, fetch zone = .urlError → zoneContribution fetch zone = []) ∧
    (∀ zone, fetch zone = .decodeError → zoneContribution fetch zone = []) :=
  ⟨query_dggs_data_eq_bind fetch zonesOutcome extent h,
   fun zone code hz => by simp [zoneContribution, query_zone_data, hz],
   fun zone hz => by simp [zoneContribution, query_zone_data, hz],
   fun zone hz => by simp [zoneContribution, query_zone_data, hz]⟩

/-- Witness for the amended C2 in the world where zone `A` fails with
HTTP 500 and zone `B` has one feature. -/
theorem query_dggs_data_absorbs_hard_errors_witness :
    get_zones_for_extent worldZones testExtent ≠ [] ∧
    query_dggs_data worldFetch500 worldZones testExtent none =
      some ⟨(get_zones_for_extent worldZones testExtent).flatMap
        (zoneContribution worldFetch500)⟩ :=
  ⟨by decide,
   (query_dggs_data_absorbs_hard_errors worldFetch500 worldZones testExtent
     (by decide)).1⟩

/-- C2 counterexample: zone `A`'s fetch fails with a hard HTTP 500,
yet the aggregation does not abort — it returns the features of
zone `B` as a successful result. -/
theorem query_dggs_data_hard_error_counterexample :
    worldFetch500 "A" = .httpError 500 ∧
    "A" ∈ get_zones_for_extent worldZones testExtent ∧
    query_dggs_data worldFetch500 worldZones testExtent none = some ⟨[featB]⟩ := by
  refine ⟨by decide, by decide, by decide⟩

/-- C3: a per-zone HTTP 404 does not abort the aggregation — the zone
contributes no features, every resolved zone is still accounted for in
order, and the coverage summary reports success. -/
theorem query_dggs_data_404_soft_miss (fetch : String → FetchOutcome)
    (zonesOutcome : ZonesListOutcome) (extent : QgsRectangle)
    (dggs_crs z0 : String)
    (hzs : get_zones_for_extent zonesOutcome extent ≠ [])
    (hz0 : z0 ∈ get_zones_for_extent zonesOutcome extent)
    (h404 : fetch z0 = .httpError 404) :
    zoneContribution fetch z0 = [] ∧
    query_dggs_data fetch zonesOutcome extent none =
      some ⟨(get_zones_for_extent zonesOutcome extent).flatMap (zoneContribution fetch)⟩ ∧
    (get_coverage_summary fetch zonesOutcome extent dggs_crs).success = true := by
  have hq := query_dggs_data_eq_bind fetch zonesOutcome extent hzs
  refine ⟨by simp [zoneContribution, query_zone_data, h404], hq, ?_⟩
  simp [get_coverage_summary, hq]

/-- Witness for C3 in the world where zone `A` returns HTTP 404 and
zone `B` has one feature. -/
theorem query_dggs_data_404_soft_miss_witness :
    get_zones_for_extent worldZones testExtent ≠ [] ∧
    "A" ∈ get_zones_for_extent worldZones testExtent ∧
    worldFetch404 "A" = .httpError 404 ∧
    (get_coverage_summary worldFetch404 worldZones testExtent "rHEALPix-R12").success
      = true :=
  ⟨by decide, by decide, by decide,
   (query_dggs_data_404_soft_miss worldFetch404 worldZones testExtent
     "rHEALPix-R12" "A" (by decide) (by decide) (by decide)).2.2⟩

/-! ## C8: elevation statistics -/

theorem featureElevation_eq_none (f : Feature) :
    featureElevation f = none ↔
      f.properties.elevation = none ∧ f.properties.height = none := by
  unfold featureElevation
  rcases f.properties.elevation with _ | e <;> simp

/-- C8: for a successful coverage summary, `elevation_stats` is
present exactly when some returned feature carries an elevation value
under one of the keys `elevation`, `height`; the probe prefers
`elevation` over `height` per feature; and when present, `min`, `max`
and `count` are the exact minimum, maximum and number of the collected
values. -/
theorem get_coverage_summary_elevation_stats (fetch : String → FetchOutcome)
    (zonesOutcome : ZonesListOutcome) (extent : QgsRectangle)
    (dggs_crs : String) (fc : FeatureCollection)
    (hq : query_dggs_data fetch zonesOutcome extent none = some fc) :
    (get_coverage_summary fetch zonesOutcome extent dggs_crs).success = true ∧
    ((get_coverage_summary fetch zonesOutcome extent dggs_crs).elevation_stats ≠ none ↔
      ∃ f ∈ fc.features,
        f.properties.elevation ≠ none ∨ f.properties.height ≠ none) ∧
    (∀ st, (get_coverage_summary fetch zonesOutcome extent dggs_crs).elevation_stats
        = some st →
      st.count = (fc.features.filterMap featureElevation).length ∧
      st.min ∈ fc.features.filterMap featureElevation ∧
      st.max ∈ fc.features.filterMap featureElevation ∧
      ∀ v ∈ fc.features.filterMap featureElevation, st.min ≤ v ∧ v ≤ st.max) ∧
    (∀ f e, f.properties.elevation = some e → featureElevation f = some e) ∧
    (∀ f, f.properties.elevation = none → featureElevation f = f.properties.height) := by
  have hred : get_coverage_summary fetch zonesOutcome extent dggs_crs =
      { success := true
        hasError := false
        zone_count := (get_dggs_zones_for_extent fetch zonesOutcome extent).length
        feature_count := fc.features.length
        zones := get_dggs_zones_for_extent fetch zonesOutcome extent
        dggs_crs := dggs_crs
        elevation_stats :=
          match fc.features.filterMap featureElevation with
          | [] => none
          | e :: es => some ⟨es.foldl min e, es.foldl max e, (e :: es).length⟩ } := by
    simp [get_coverage_summary, hq]
  refine ⟨by rw [hred], ?_, ?_, ?_, ?_⟩
  · rw [hred]
    rcases he : fc.features.filterMap featureElevation with _ | ⟨e, es⟩
    · simp only [ne_eq, not_true_eq_false, false_iff]
      rintro ⟨f, hf, hor⟩
      have hnone := List.filterMap_eq_nil_iff.mp he f hf
      rcases (featureElevation_eq_none f).mp hnone with ⟨h1, h2⟩
      rcases hor with h | h <;> exact h (by assumption)
    · simp only [ne_eq, reduceCtorEq, not_false_eq_true, true_iff]
      have he' : e ∈ fc.features.filterMap featureElevation := by
        rw [he]; exact List.mem_cons_self _ _
      obtain ⟨f, hf, hfe⟩ := List.mem_filterMap.mp he'
      refine ⟨f, hf, ?_⟩
      unfold featureElevation at hfe
      rcases hel : f.properties.elevation with _ | v
      · rw [hel] at hfe
        simp at hfe
        exact Or.inr (by simp [hfe])
      · exact Or.inl (by simp [hel])
  · intro st hst
    rw [hred] at hst
    have hst2 : (match fc.features.filterMap featureElevation with
        | [] => none
        | e :: es =>
            some (⟨es.foldl min e, es.foldl max e, (e :: es).length⟩ : ElevationStats))
        = some st := hst
    rcases he : fc.features.filterMap featureElevation with _ | ⟨e, es⟩
    · rw [he] at hst2
      simp at hst2
    · rw [he] at hst2
      rw [Option.some_inj] at hst2
      subst hst2
      refine ⟨rfl, ?_, ?_, ?_⟩
      · show es.foldl min e ∈ e :: es
        rcases foldl_min_mem es e with hm | hm
        · rw [hm]; exact List.mem_cons_self _ _
        · exact List.mem_cons_of_mem _ hm
      · show es.foldl max e ∈ e :: es
        rcases foldl_max_mem es e with hm | hm
        · rw [hm]; exact List.mem_cons_self _ _
        · exact List.mem_cons_of_mem _ hm
      · show ∀ v ∈ e :: es, es.foldl min e ≤ v ∧ v ≤ es.foldl max e
        intro v hv
        rcases List.mem_cons.mp hv with rfl | hv
        · exact ⟨(foldl_min_le es v).1, (foldl_max_le es v).1⟩
        · exact ⟨(foldl_min_le es e).2 v hv, (foldl_max_le es e).2 v hv⟩
  · intro f e hf
    unfold featureElevation
    rw [hf]
  · intro f hf
    unfold featureElevation
    rw [hf]

/-- Witness for C8: in the 404 world the summary succeeds, and since
`featB` carries elevation `12` the stats are present. -/
theorem get_coverage_summary_elevation_stats_witness :
    query_dggs_data worldFetch404 worldZones testExtent none = some ⟨[featB]⟩ ∧
    ((get_coverage_summary worldFetch404 worldZones testExtent
        "rHEALPix-R12").elevation_stats ≠ none) :=
  ⟨by decide,
   ((get_coverage_summary_elevation_stats worldFetch404 worldZones testExtent
       "rHEALPix-R12" ⟨[featB]⟩ (by decide)).2.1).mpr
     ⟨featB, by decide, Or.inl (by decide)⟩⟩

/-! ## C4: item file names versus collection item links -/

/-- C4 evaluated at a failing input: exporting the layer named
`My Layer` writes the item JSON to `my_layer.json`, but the collection
built afterwards carries its `item` link as `./{uuid}.json` — a file
that was never written — so the link does not refer to the file the
item was written to. -/
theorem export_collection_link_mismatch :
    export_layer exporterInit layerMy uuidMy nowMy metaOpTest =
      some (stateMy, "my_layer.json") ∧
    stateMy.written_item_files.map Prod.fst = ["my_layer.json"] ∧
    (create_collection stateMy "op-test" "t" "d" nowMy).links =
      [("self", "./collection.json"), ("root", "./collection.json"),
       ("item", "./123e4567-e89b-12d3-a456-426614174000.json")] ∧
    (("./123e4567-e89b-12d3-a456-426614174000.json" : String) ≠ "./my_layer.json") := by
  exact ⟨by decide, by decide, by decide, by decide⟩

end CopExporter
